import Mathlib

/-!
Verification development for `migrate_drive_files.py`, a Google Drive
migration tool.  Python strings are modelled as `List Char`; machine-level
details (timing of backoff sleeps, console prints) are not modelled.
Each helper function of the script is embedded as a Lean function over an
explicit environment describing the remote service's responses; exceptions
are modelled as explicit result constructors.
-/

namespace DriveMigrate

/-! ## Python string primitives

`str.split`, `str.strip` and `os.path.splitext`, modelled on `List Char`.
-/

/-- Does `s` start with the pattern `p`?  (Python substring match at the head.) -/
def pyStartsWith : List Char → List Char → Bool
  | _, [] => true
  | [], _ :: _ => false
  | a :: s, b :: p => a = b && pyStartsWith s p

/-- First occurrence of the non-empty separator `sep` in `s`:
returns `(before, after)` where `s = before ++ sep ++ after` at the first
occurrence, or `none` when `sep` does not occur in `s`. -/
def findSplit : List Char → List Char → Option (List Char × List Char)
  | [], _ => none
  | c :: rest, sep =>
    if pyStartsWith (c :: rest) sep then some ([], (c :: rest).drop sep.length)
    else
      match findSplit rest sep with
      | some (pre, post) => some (c :: pre, post)
      | none => none

/-- Python `in` test for substrings: `sub in s`. -/
def pyContainsSub (s sub : List Char) : Bool := (findSplit s sub).isSome

/-- Fueled worker for `pySplit`; the fuel `s.length + 1` always suffices
because each found separator occurrence consumes at least one character. -/
def pySplitAux : Nat → List Char → List Char → List (List Char)
  | 0, s, _ => [s]
  | fuel + 1, s, sep =>
    match findSplit s sep with
    | none => [s]
    | some (pre, post) => pre :: pySplitAux fuel post sep

/-- Python `s.split(sep)` for a non-empty separator. -/
def pySplit (s sep : List Char) : List (List Char) :=
  pySplitAux (s.length + 1) s sep

/-- Python `s.strip()`: drop whitespace from both ends. -/
def pyStrip (s : List Char) : List Char :=
  ((s.dropWhile Char.isWhitespace).reverse.dropWhile Char.isWhitespace).reverse

/-- Index of the last occurrence of `c` in `s`, if any. -/
def lastIdxOf (s : List Char) (c : Char) : Option Nat :=
  ((s.enum.filter (fun p => p.2 = c)).map (fun p => p.1)).getLast?

/-- CPython `posixpath.splitext`: split `p` into `(root, extension)`.
Leading dots of the last path component do not begin an extension. -/
def splitextP (p : List Char) : List Char × List Char :=
  let sepIdx : Int := match lastIdxOf p '/' with | none => -1 | some i => (i : Int)
  let dotIdx : Int := match lastIdxOf p '.' with | none => -1 | some i => (i : Int)
  if sepIdx < dotIdx then
    let fnStart := (sepIdx + 1).toNat
    let dotN := dotIdx.toNat
    let between := (p.drop fnStart).take (dotN - fnStart)
    if between.all (fun c => c = '.') then (p, [])
    else (p.take dotN, p.drop dotN)
  else (p, [])

/-- Character list of a string literal. -/
def strL (s : String) : List Char := s.data

example : pySplit (strL "a,b,c") (strL ",") = [strL "a", strL "b", strL "c"] := by decide
example : pySplit (strL "xabcy") (strL "abc") = [strL "x", strL "y"] := by decide
example : splitextP (strL "archive.tar.gz") = (strL "archive.tar", strL ".gz") := by decide
example : splitextP (strL ".bashrc") = (strL ".bashrc", []) := by decide
example : splitextP (strL "noext") = (strL "noext", []) := by decide

/-! ## Retry policy (`retry_with_backoff`, lines 30-53)

One attempt of a wrapped operation either returns a value, raises an
`HttpError` with a status code, or raises an `OSError`/`IOError`.  The
wrapper loops `while retries < MAX_RETRIES`: a successful call returns, an
`HttpError` with status in `[429, 500, 502, 503, 504]` is retried after a
backoff sleep, any other `HttpError` is re-raised, an `OSError` is retried;
when the loop ends it raises `Exception("Max retries (...) exceeded for
<name>.")`.  Sleeping is not modelled; the attempt count is. -/

def MAX_RETRIES : Nat := 5

/-- Statuses retried by the wrapper: `[429, 500, 502, 503, 504]`. -/
def transientStatus (s : Nat) : Bool :=
  s = 429 || s = 500 || s = 502 || s = 503 || s = 504

/-- Outcome of one attempt of the wrapped body. -/
inductive Attempt (α : Type) where
  | ok (v : α)
  | http (status : Nat)
  | ioErr
deriving DecidableEq

/-- Outcome of the whole wrapped call. -/
inductive RetryRes (α : Type) where
  | ok (v : α)
  | raisedHttp (status : Nat)
  | exhausted (msg : String)
deriving DecidableEq

/-- The message of the exception raised when attempts are exhausted (line 52). -/
def exhaustedMsg (nm : String) : String :=
  "Max retries (" ++ toString MAX_RETRIES ++ ") exceeded for " ++ nm ++ "."

/-- Is this attempt outcome one the wrapper retries? -/
def isTransientAttempt : Attempt α → Bool
  | .ok _ => false
  | .http s => transientStatus s
  | .ioErr => true

/-- The retry loop; `gas` is `MAX_RETRIES - retries`, `n` the number of
attempts already made.  Returns the overall result and the total number of
attempts of the body. -/
def retryLoop (nm : String) (f : Nat → Attempt α) : Nat → Nat → RetryRes α × Nat
  | 0, n => (.exhausted (exhaustedMsg nm), n)
  | gas + 1, n =>
    match f n with
    | .ok v => (.ok v, n + 1)
    | .http s => if transientStatus s then retryLoop nm f gas (n + 1) else (.raisedHttp s, n + 1)
    | .ioErr => retryLoop nm f gas (n + 1)

/-- `retry_with_backoff` applied to a body whose `n`-th attempt behaves as
`f n`; `nm` is `func.__name__`. -/
def retry_with_backoff (nm : String) (f : Nat → Attempt α) : RetryRes α × Nat :=
  retryLoop nm f MAX_RETRIES 0

example :
    retry_with_backoff "op" (fun _ => Attempt.ioErr (α := Unit))
      = (.exhausted (exhaustedMsg "op"), 5) := by decide
example :
    retry_with_backoff "op" (fun _ => Attempt.http 404 (α := Unit))
      = (.raisedHttp 404, 1) := by decide
example :
    retry_with_backoff "op" (fun n => if n < 2 then Attempt.http 503 else .ok ())
      = (.ok (), 3) := by decide

/-- If every attempt in the next `gas` calls is transient, the loop exhausts
its gas and raises, having made exactly `gas` further attempts. -/
theorem retryLoop_all_transient (nm : String) (f : Nat → Attempt α) :
    ∀ gas n, (∀ k, k < gas → isTransientAttempt (f (n + k)) = true) →
      retryLoop nm f gas n = (.exhausted (exhaustedMsg nm), n + gas) := by
  intro gas
  induction gas with
  | zero => intro n _; simp [retryLoop]
  | succ g ih =>
    intro n h
    have h0 : isTransientAttempt (f n) = true := by
      have := h 0 (Nat.succ_pos g)
      simpa using this
    have hrest : ∀ k, k < g → isTransientAttempt (f (n + 1 + k)) = true := by
      intro k hk
      have := h (k + 1) (by omega)
      have e : n + (k + 1) = n + 1 + k := by omega
      rw [e] at this
      exact this
    cases hf : f n with
    | ok v => rw [hf] at h0; simp [isTransientAttempt] at h0
    | http s =>
      rw [hf] at h0
      simp only [isTransientAttempt] at h0
      have := ih (n + 1) hrest
      simp [retryLoop, hf, h0, this]
      omega
    | ioErr =>
      have := ih (n + 1) hrest
      simp [retryLoop, hf, this]
      omega

/-! ## `copy_file` (lines 101-126) and `list_files_in_folder` (lines 204-212)

`copy_file`'s body fetches metadata, then performs the server-side copy;
crucially it catches every `HttpError` itself and returns `None` (lines
124-126), so the retry wrapper around it never sees an `HttpError` — only
an `OSError` escapes the body to the wrapper.  `list_files_in_folder`'s
body has no internal handler, so there the wrapper does see `HttpError`s. -/

/-- Body of `copy_file`, per attempt.  `copyCall n` is the behaviour of the
remote `files().copy(...)` request on the `n`-th attempt; `metaOk` says
whether the internal `get_file_metadata` call yielded metadata.  An
`HttpError` of the copy request is caught inside the body and turned into a
returned `None`; an `OSError` escapes to the wrapper. -/
def copyFileBody (copyCall : Nat → Attempt String) (metaOk : Bool) (n : Nat) :
    Attempt (Option String) :=
  if metaOk then
    match copyCall n with
    | .ok cid => .ok (some cid)
    | .http _ => .ok none
    | .ioErr => .ioErr
  else .ok none

/-- `copy_file`: the body above under `@retry_with_backoff`. -/
def copy_file (copyCall : Nat → Attempt String) (metaOk : Bool) :
    RetryRes (Option String) × Nat :=
  retry_with_backoff "copy_file" (copyFileBody copyCall metaOk)

/-- `list_files_in_folder`: a single `files().list` request (no page token
parameter exists) under `@retry_with_backoff`; the body catches nothing. -/
def list_files_in_folder (listReq : Nat → Attempt α) : RetryRes α × Nat :=
  retry_with_backoff "list_files_in_folder" listReq

/-! ## Fallback duplicator (`download_and_upload_file`, lines 145-202)

Export-format selection for Google editable types, the re-upload name, and
the creation metadata.  Note: lines 188 and 190 reference
`MediaIoBaseUpload`, but the imports (line 11) bring in only
`MediaIoBaseDownload` and `MediaFileUpload`; reaching the upload step
therefore raises `NameError`, which the `except HttpError` handler does not
catch, so the function can never reach the `files().create` call. -/

def folderMime : String := "application/vnd.google-apps.folder"
def gdocMime : String := "application/vnd.google-apps.document"
def gsheetMime : String := "application/vnd.google-apps.spreadsheet"
def gslidesMime : String := "application/vnd.google-apps.presentation"
def docxMime : String :=
  "application/vnd.openxmlformats-officedocument.wordprocessingml.document"
def xlsxMime : String :=
  "application/vnd.openxmlformats-officedocument.spreadsheetml.sheet"
def pptxMime : String :=
  "application/vnd.openxmlformats-officedocument.presentationml.presentation"

/-- Export format selection (lines 153-165): for the three Google editable
types, the fixed export mime type and file extension; otherwise `none`
(raw download; the extension is taken from the original filename). -/
def exportInfoFor (mime : String) : Option (String × String) :=
  if mime = gdocMime then some (docxMime, ".docx")
  else if mime = gsheetMime then some (xlsxMime, ".xlsx")
  else if mime = gslidesMime then some (pptxMime, ".pptx")
  else none

/-- `new_file_name` (line 182): `os.path.splitext(original_filename)[0] +
file_extension`, where `file_extension` is the export extension for
editable types and `os.path.splitext(original_filename)[1]` otherwise. -/
def dlulNewName (originalFilename : List Char) (mime : String) : List Char :=
  match exportInfoFor mime with
  | some (_, ext) => (splitextP originalFilename).1 ++ ext.data
  | none => (splitextP originalFilename).1 ++ (splitextP originalFilename).2

/-- The mimetype handed to the upload media object (lines 187-190): the
export mime type if exported, else the original mime type. -/
def uploadMimeFor (mime : String) : String :=
  match exportInfoFor mime with
  | some (em, _) => em
  | none => mime

/-- The creation metadata dict built at lines 183-185:
`file_metadata = {'name': new_file_name}` — a single key, no parents. -/
def dlulUploadMetadata (originalFilename : List Char) (mime : String) :
    List (String × List Char) :=
  [("name", dlulNewName originalFilename mime)]

/-- Observable actions of `download_and_upload_file`. -/
inductive DlEv where
  | exportMedia (mime : String)
  | getMedia
  | closeBuffer
  | createItem (name : List Char) (mime : String)
deriving DecidableEq

/-- Result of `download_and_upload_file`. -/
inductive DlRes where
  | retNone
  | retId (id : String)
  | nameError
deriving DecidableEq

/-- `download_and_upload_file`: `meta` is the result of the internal
`get_file_metadata` call, `downloadOk` whether the chunked download
completes without raising an `HttpError`.  When the download completes the
next executed expression, `MediaIoBaseUpload(...)`, raises `NameError`
(the name is never imported), the `finally` block closes the buffer, and
the error propagates; the `files().create` upload is never reached. -/
def download_and_upload_file (meta : Option String) (downloadOk : Bool)
    (_originalFilename : List Char) : List DlEv × DlRes :=
  match meta with
  | none => ([], .retNone)
  | some mime =>
    let dlEv := match exportInfoFor mime with
      | some (em, _) => DlEv.exportMedia em
      | none => DlEv.getMedia
    if downloadOk then ([dlEv, .closeBuffer], .nameError)
    else ([dlEv, .closeBuffer], .retNone)

example :
    download_and_upload_file (some gdocMime) true (strL "Report")
      = ([DlEv.exportMedia docxMime, DlEv.closeBuffer], DlRes.nameError) := by decide
example :
    download_and_upload_file (some "image/png") false (strL "photo.png")
      = ([DlEv.getMedia, DlEv.closeBuffer], DlRes.retNone) := by decide

/-! ## The tree migrator (`process_item`, lines 213-256)

`Env` fixes the observable behaviour of the (retry-wrapped) helper calls
during a run.  `Except.error e` models an exception escaping the helper
uncaught (the wrapper's `RetriesExhausted` on repeated I/O errors); helpers
that catch `HttpError` internally otherwise return an optional id.  The
listing helper has three outcomes: a returned first page, a permanent
`HttpError` re-raised by the wrapper (caught by `process_item`'s `except
HttpError`), or the wrapper's exhaustion exception (not caught). -/

/-- Item metadata as used by `process_item` (`name, id, mimeType`). -/
structure Meta where
  id : String
  name : String
  mimeType : String
deriving DecidableEq

/-- One `files().list` response: the files plus an optional
`nextPageToken`. -/
structure Page where
  files : List Meta
  nextPageToken : Option String
deriving DecidableEq

/-- Observable outcome of the `list_files_in_folder` call. -/
inductive ListRes where
  | page (pg : Page)
  | httpErr
  | exhausted
deriving DecidableEq

/-- Behaviour of the remote helpers during one run. -/
structure Env where
  metadata : String → Except String (Option Meta)
  createFolder : String → String → Except String (Option String)
  listCall : String → ListRes
  copy : String → Except String (Option String)
  dlul : String → Except String (Option String)
  move : String → String → Except String (Option String)

/-- Observable events of a `process_item` run, in order. -/
inductive Ev where
  | getMeta (id : String)
  | createFolder (name parent : String)
  | listChildren (id : String)
  | copyFile (id : String)
  | downloadUpload (id : String)
  | moveFile (id : String) (dest : String)
deriving DecidableEq

/-- How a `process_item` call ends: a normal return, or an uncaught
exception propagating to the caller. -/
inductive PRes where
  | done
  | exn (msg : String)
deriving DecidableEq

/-- `move_file`'s effect on control flow: its return value is ignored by
`process_item`, but an escaping exception propagates. -/
def moveResult (env : Env) (fid dest : String) : PRes :=
  match env.move fid dest with
  | .error e => .exn e
  | .ok _ => .done

/-- The `for item in items:` loop of lines 239-240: process each child in
order; an exception from one child aborts the loop (and skips the parent's
relocation), while a child that merely returns lets the loop continue. -/
def runChildren (f : String → List Ev × PRes) : List Meta → List Ev × PRes
  | [] => ([], .done)
  | m :: rest =>
    match f m.id with
    | (evs, .exn e) => (evs, .exn e)
    | (evs, .done) =>
      let r := runChildren f rest
      (evs ++ r.1, r.2)

/-- `process_item(service, file_id, backup_folder_id)`.  The fuel argument
bounds the recursion depth; running out of fuel models Python's
`RecursionError`.  For a folder: create the mirror folder (give up on
failure), list the children — a `nextPageToken` in the response leads to
the line-233 call `list_files_in_folder(service, file_id, token)`, which
passes 3 arguments to a 2-parameter function and so raises `TypeError`,
uncaught by the `except HttpError` handler — then recurse into every child
and finally relocate the original folder into `dest`.  For a file: copy,
fall back to download/re-upload, and only relocate when one of the two
produced an id. -/
def process_item (env : Env) : Nat → String → String → List Ev × PRes
  | 0, _, _ => ([], .exn "RecursionError")
  | fuel + 1, fid, dest =>
    match env.metadata fid with
    | .error e => ([.getMeta fid], .exn e)
    | .ok none => ([.getMeta fid], .done)
    | .ok (some m) =>
      if m.mimeType = folderMime then
        match env.createFolder m.name dest with
        | .error e => ([.getMeta fid, .createFolder m.name dest], .exn e)
        | .ok none => ([.getMeta fid, .createFolder m.name dest], .done)
        | .ok (some nf) =>
          match env.listCall fid with
          | .httpErr =>
            ([.getMeta fid, .createFolder m.name dest, .listChildren fid], .done)
          | .exhausted =>
            ([.getMeta fid, .createFolder m.name dest, .listChildren fid],
             .exn "RetriesExhausted")
          | .page pg =>
            match pg.nextPageToken with
            | some _ =>
              ([.getMeta fid, .createFolder m.name dest, .listChildren fid],
               .exn "TypeError")
            | none =>
              match runChildren (fun cid => process_item env fuel cid nf) pg.files with
              | (cevs, .exn e) =>
                ([.getMeta fid, .createFolder m.name dest, .listChildren fid] ++ cevs,
                 .exn e)
              | (cevs, .done) =>
                ([.getMeta fid, .createFolder m.name dest, .listChildren fid] ++ cevs
                   ++ [.moveFile fid dest],
                 moveResult env fid dest)
      else
        match env.copy fid with
        | .error e => ([.getMeta fid, .copyFile fid], .exn e)
        | .ok (some _) =>
          ([.getMeta fid, .copyFile fid, .moveFile fid dest], moveResult env fid dest)
        | .ok none =>
          match env.dlul fid with
          | .error e => ([.getMeta fid, .copyFile fid, .downloadUpload fid], .exn e)
          | .ok none => ([.getMeta fid, .copyFile fid, .downloadUpload fid], .done)
          | .ok (some _) =>
            ([.getMeta fid, .copyFile fid, .downloadUpload fid, .moveFile fid dest],
             moveResult env fid dest)

/-! ## The manifest driver (`process_csv`, lines 258-286)

Row handling: the header row is consumed by `next(reader, None)`; rows with
at most one column are skipped silently; the URL is `row[1].strip()`; two
URL shapes are recognized (lines 271-274); a falsy extracted id skips the
row with a diagnostic.  The `try`/`except` pair wraps the *whole* loop
(lines 260-286), so an exception escaping one row's `process_item` call is
caught by the function-level `except Exception` and ends the loop: the
remaining rows are never attempted. -/

/-- `file_id` extraction from a URL (lines 270-274):
`url.split("drive.google.com/file/d/")[1].split("/")[0]` when the file
pattern occurs in the URL, else
`url.split("drive.google.com/drive/folders/")[1].split("?")[0]` when the
folder pattern occurs, else `None`. -/
def filePat : List Char := (strL "drive.google.com/file/d/")

def folderPat : List Char := (strL "drive.google.com/drive/folders/")

def extractDriveId (url : List Char) : Option (List Char) :=
  if pyContainsSub url filePat then
    some ((pySplit ((pySplit url filePat).getD 1 []) (strL "/")).getD 0 [])
  else if pyContainsSub url folderPat then
    some ((pySplit ((pySplit url folderPat).getD 1 []) (strL "?")).getD 0 [])
  else
    none

/-- Observable events of the manifest loop. -/
inductive CsvEv where
  | skippedNoId (url : List Char)
  | processed (fid : List Char)
deriving DecidableEq

/-- How `process_csv` ends. -/
inductive CsvRes where
  | finished
  | fileNotFound
  | unexpectedErr (e : String)
deriving DecidableEq

/-- The `for row in reader:` loop (lines 265-281).  `runItem` abstracts the
`process_item(service, file_id, backup_folder_id)` call; an `.exn` from it
propagates to the function-level handler, ending the loop. -/
def process_rows (runItem : List Char → PRes) :
    List (List (List Char)) → List CsvEv × CsvRes
  | [] => ([], .finished)
  | row :: rest =>
    if row.length ≤ 1 then process_rows runItem rest
    else
      let url := pyStrip (row.getD 1 [])
      match extractDriveId url with
      | none =>
        let r := process_rows runItem rest
        (.skippedNoId url :: r.1, r.2)
      | some fid =>
        if fid = [] then
          let r := process_rows runItem rest
          (.skippedNoId url :: r.1, r.2)
        else
          match runItem fid with
          | .exn e => ([.processed fid], .unexpectedErr e)
          | .done =>
            let r := process_rows runItem rest
            (.processed fid :: r.1, r.2)

/-- `process_csv(service, csv_file, backup_folder_id)`: a missing file is
reported and nothing is migrated; otherwise the header row is dropped and
the row loop runs. -/
def process_csv (runItem : List Char → PRes) (fileExists : Bool)
    (rows : List (List (List Char))) : List CsvEv × CsvRes :=
  if fileExists then process_rows runItem (rows.drop 1) else ([], .fileNotFound)

/-! ## Concrete runs used by the theorems -/

/-- A folder `F` containing the single file `C`. -/
def metaF : Meta := ⟨"F", "Fname", folderMime⟩

/-- The file `C`, for which both duplication paths fail. -/
def metaC : Meta := ⟨"C", "Cname", "text/plain"⟩

/-- Single listing page of `F`: just `C`, no further page. -/
def pgC1 : Page := ⟨[metaC], none⟩

/-- Run: metadata available for `F` and `C`, mirror-folder creation
succeeds, listing returns one page, both `copy_file` and
`download_and_upload_file` fail (return `None`) for every file, the
relocation call succeeds. -/
def envC1 : Env :=
  ⟨fun i => if i = "F" then .ok (some metaF) else if i = "C" then .ok (some metaC) else .ok none,
   fun _ _ => .ok (some "NF"),
   fun i => if i = "F" then .page pgC1 else .page ⟨[], none⟩,
   fun _ => .ok none,
   fun _ => .ok none,
   fun _ _ => .ok (some "moved")⟩

example :
    process_item envC1 2 "F" "bak"
      = ([Ev.getMeta "F", Ev.createFolder "Fname" "bak", Ev.listChildren "F",
          Ev.getMeta "C", Ev.copyFile "C", Ev.downloadUpload "C",
          Ev.moveFile "F" "bak"], PRes.done) := by decide

/-- A folder `F5` whose listing carries a `nextPageToken` (a second page
exists), with one first-page child `D`. -/
def metaF5 : Meta := ⟨"F5", "F5name", folderMime⟩

def metaD : Meta := ⟨"D", "Dname", "text/plain"⟩

def pgC5 : Page := ⟨[metaD], some "tok2"⟩

/-- Run: every operation succeeds, but folder `F5`'s listing spans two
pages. -/
def envC5 : Env :=
  ⟨fun i => if i = "F5" then .ok (some metaF5) else .ok (some metaD),
   fun _ _ => .ok (some "NF5"),
   fun i => if i = "F5" then .page pgC5 else .page ⟨[], none⟩,
   fun _ => .ok (some "cp"),
   fun _ => .ok (some "du"),
   fun _ _ => .ok (some "mv")⟩

example :
    process_item envC5 3 "F5" "bak"
      = ([Ev.getMeta "F5", Ev.createFolder "F5name" "bak", Ev.listChildren "F5"],
         PRes.exn "TypeError") := by decide

/-- A two-row manifest (after the header): the first row names the
paginated folder `F5`, the second a plain file `GOOD`. -/
def rowsC4 : List (List (List Char)) :=
  [[strL "name", strL "url"],
   [strL "item one", strL "https://drive.google.com/file/d/F5/view"],
   [strL "item two", strL "https://drive.google.com/file/d/GOOD/view"]]

example :
    process_csv (fun cs => (process_item envC5 4 (String.mk cs) "bak").2) true rowsC4
      = ([CsvEv.processed (strL "F5")], CsvRes.unexpectedErr "TypeError") := by decide

/-! ## Claim theorems -/

/-- C3: an operation wrapped by the retry policy that raises a transient
failure on every attempt is attempted exactly `MAX_RETRIES` times and then
fails with the retries-exhausted error naming the operation; an operation
that raises a permanent (non-transient) `HttpError` on the first attempt
makes exactly one attempt and the error propagates immediately. -/
theorem retry_transient_cap_and_permanent_single (α : Type) (f g : Nat → Attempt α)
    (nm : String) (s : Nat)
    (hf : ∀ n, n < MAX_RETRIES → isTransientAttempt (f n) = true)
    (hg : g 0 = Attempt.http s) (hs : transientStatus s = false) :
    retry_with_backoff nm f = (.exhausted (exhaustedMsg nm), MAX_RETRIES)
    ∧ retry_with_backoff nm g = (.raisedHttp s, 1) := by
  constructor
  · have h := retryLoop_all_transient nm f MAX_RETRIES 0 (by intro k hk; simpa using hf k hk)
    simpa [retry_with_backoff] using h
  · have h1 : ∀ gas n, g n = Attempt.http s →
        retryLoop nm g (gas + 1) n = (.raisedHttp s, n + 1) := by
      intro gas n hgn
      simp [retryLoop, hgn, hs]
    have h2 := h1 4 0 hg
    simpa [retry_with_backoff, MAX_RETRIES] using h2

/-- Witness for C3 at concrete bodies: transport errors on every attempt
exhaust the five attempts; a 404 on the first attempt makes one attempt. -/
theorem retry_transient_cap_and_permanent_single_witness :
    retry_with_backoff "get_file_metadata" (fun _ => Attempt.ioErr (α := Unit))
      = (.exhausted (exhaustedMsg "get_file_metadata"), MAX_RETRIES)
    ∧ retry_with_backoff "get_file_metadata" (fun _ => Attempt.http 404 (α := Unit))
      = (.raisedHttp 404, 1) :=
  retry_transient_cap_and_permanent_single Unit (fun _ => .ioErr) (fun _ => .http 404)
    "get_file_metadata" 404 (fun _ _ => rfl) rfl (by decide)

/-- C6 counterexample: `copy_file` against a remote whose copy request
raises a rate-limit `HttpError` (429) on every attempt returns `None`
after exactly one attempt — the body's own `except HttpError` (lines
124-126) converts the transient failure into an immediate failure result
instead of letting the retry policy wait and retry it. -/
theorem copy_transient_http_not_retried :
    copy_file (fun _ => Attempt.http 429) true = (RetryRes.ok none, 1) := by decide

/-- C6 (amended): every operation is executed under the retry wrapper and
transport-level I/O failures are retried up to the attempt cap, but for the
operations that catch `HttpError` internally (here `copy_file`) an HTTP
transient failure is converted into an immediate `None` result on the
first attempt and never retried; only `list_files_in_folder` lets HTTP
transient failures reach the retry loop. -/
theorem remote_ops_retry_only_io (c1 c2 : Nat → Attempt String)
    (pgReq : Nat → Attempt Page) (s1 : Nat)
    (_hs1 : transientStatus s1 = true) (h1 : c1 0 = Attempt.http s1)
    (h2 : ∀ n, c2 n = Attempt.ioErr)
    (h3 : ∀ n, pgReq n = Attempt.http 503) :
    copy_file c1 true = (.ok none, 1)
    ∧ copy_file c2 true = (.exhausted (exhaustedMsg "copy_file"), MAX_RETRIES)
    ∧ list_files_in_folder pgReq
        = (.exhausted (exhaustedMsg "list_files_in_folder"), MAX_RETRIES) := by
  refine ⟨?_, ?_, ?_⟩
  · have h4 : retryLoop "copy_file" (copyFileBody c1 true) (4 + 1) 0 = (.ok none, 0 + 1) := by
      simp [retryLoop, copyFileBody, h1]
    simpa [copy_file, retry_with_backoff, MAX_RETRIES] using h4
  · have h5 := retryLoop_all_transient "copy_file" (copyFileBody c2 true) MAX_RETRIES 0
      (by intro k _; simp [copyFileBody, h2, isTransientAttempt])
    simpa [copy_file, retry_with_backoff] using h5
  · have h6 := retryLoop_all_transient "list_files_in_folder" pgReq MAX_RETRIES 0
      (by intro k _; simp [h3, isTransientAttempt, transientStatus])
    simpa [list_files_in_folder, retry_with_backoff] using h6

/-- Witness for the amended C6: a 503 on the copy request yields `None`
after one attempt; I/O errors on the copy request are retried to
exhaustion; 503s on the listing request are retried to exhaustion. -/
theorem remote_ops_retry_only_io_witness :
    copy_file (fun _ => Attempt.http 503) true = (.ok none, 1)
    ∧ copy_file (fun _ => Attempt.ioErr) true
        = (.exhausted (exhaustedMsg "copy_file"), MAX_RETRIES)
    ∧ list_files_in_folder (fun _ => Attempt.http 503 (α := Page))
        = (.exhausted (exhaustedMsg "list_files_in_folder"), MAX_RETRIES) :=
  remote_ops_retry_only_io (fun _ => .http 503) (fun _ => .ioErr) (fun _ => .http 503)
    503 (by decide) rfl (fun _ => rfl) (fun _ => rfl)

/-- C9: the export format table is docx/xlsx/pptx for the three Google
editable types and raw download otherwise, and the intended re-upload name
and mime type are as claimed; but evaluating `download_and_upload_file` on
the failing input (a Google document reaching the fallback with a
successful export download) shows the function raises `NameError` at the
`MediaIoBaseUpload` reference instead of re-uploading — it can never
return a new item id. -/
theorem fallback_selection_and_upload_never_happens :
    exportInfoFor gdocMime = some (docxMime, ".docx")
    ∧ exportInfoFor gsheetMime = some (xlsxMime, ".xlsx")
    ∧ exportInfoFor gslidesMime = some (pptxMime, ".pptx")
    ∧ exportInfoFor "image/png" = none
    ∧ dlulNewName (strL "Report") gdocMime = strL "Report.docx"
    ∧ uploadMimeFor gdocMime = docxMime
    ∧ dlulNewName (strL "photo.png") "image/png" = strL "photo.png"
    ∧ uploadMimeFor "image/png" = "image/png"
    ∧ download_and_upload_file (some gdocMime) true (strL "Report")
        = ([DlEv.exportMedia docxMime, DlEv.closeBuffer], DlRes.nameError)
    ∧ (∀ (mo : Option String) (d : Bool) (fn : List Char) (i : String),
        (download_and_upload_file mo d fn).2 ≠ DlRes.retId i) := by
  refine ⟨by decide, by decide, by decide, by decide, by decide, by decide,
    by decide, by decide, by decide, ?_⟩
  intro mo d fn i
  cases mo with
  | none => simp [download_and_upload_file]
  | some mime => cases d <;> simp [download_and_upload_file]

/-- C10: the creation metadata built for the fallback re-upload (lines
183-185) holds only a `name` key — no parent container — but evaluating
the code on a file reaching the fallback shows the upload call is never
executed: the `MediaIoBaseUpload` reference raises `NameError` first, so
no duplicate item is created anywhere. -/
theorem fallback_upload_metadata_parentless_but_unreached :
    (dlulUploadMetadata (strL "photo.png") "image/png").map Prod.fst = ["name"]
    ∧ (∀ (fn : List Char) (mime : String),
        "parents" ∉ (dlulUploadMetadata fn mime).map Prod.fst)
    ∧ download_and_upload_file (some "image/png") true (strL "photo.png")
        = ([DlEv.getMedia, DlEv.closeBuffer], DlRes.nameError)
    ∧ (∀ (mo : Option String) (d : Bool) (fn nmArg : List Char) (mm : String),
        DlEv.createItem nmArg mm ∉ (download_and_upload_file mo d fn).1) := by
  refine ⟨by decide, ?_, by decide, ?_⟩
  · intro fn mime
    simp [dlulUploadMetadata]
  · intro mo d fn nmArg mm
    cases mo with
    | none => simp [download_and_upload_file]
    | some mime =>
      rcases hexp : exportInfoFor mime with _ | ⟨em, ext⟩ <;>
        cases d <;> simp [download_and_upload_file, hexp]

/-- C2: a file is never relocated unless a duplicate was confirmed: when
both the server-side copy and the download/re-upload fallback return no id,
`process_item` returns without invoking `move_file`; and whenever the
relocation event occurs for a file, one of the two duplication paths
returned an id. -/
theorem file_relocated_only_with_duplicate (env : Env) (fuel : Nat) (fid dest : String)
    (m : Meta) (hm : env.metadata fid = Except.ok (some m))
    (hf : ¬ m.mimeType = folderMime) :
    (env.copy fid = Except.ok none → env.dlul fid = Except.ok none →
      process_item env (fuel + 1) fid dest
        = ([Ev.getMeta fid, Ev.copyFile fid, Ev.downloadUpload fid], PRes.done))
    ∧ (∀ d, Ev.moveFile fid d ∈ (process_item env (fuel + 1) fid dest).1 →
        (∃ c, env.copy fid = Except.ok (some c))
        ∨ (∃ c, env.dlul fid = Except.ok (some c))) := by
  constructor
  · intro hc hd
    simp [process_item, hm, hf, hc, hd]
  · intro d hmem
    rcases hcopy : env.copy fid with e | oc
    · simp [process_item, hm, hf, hcopy] at hmem
    · cases oc with
      | some c => exact Or.inl ⟨c, rfl⟩
      | none =>
        rcases hdl : env.dlul fid with e2 | od
        · simp [process_item, hm, hf, hcopy, hdl] at hmem
        · cases od with
          | some c => exact Or.inr ⟨c, rfl⟩
          | none => simp [process_item, hm, hf, hcopy, hdl] at hmem

/-- Witness for C2: in `envC1` the file `C` fails both duplication paths
and is left in place, with no relocation event. -/
theorem file_relocated_only_with_duplicate_witness :
    process_item envC1 1 "C" "bak"
      = ([Ev.getMeta "C", Ev.copyFile "C", Ev.downloadUpload "C"], PRes.done) :=
  (file_relocated_only_with_duplicate envC1 0 "C" "bak" metaC rfl (by decide)).1 rfl rfl

/-- C7: for a folder, failure to create the mirror folder, or failure of
the child listing (a permanent `HttpError` caught by the branch, or the
retry wrapper's exhaustion), ends the branch with no relocation of the
folder and no child processed: the run's full trace in each case is just
the attempted calls, with no `moveFile` event and no recursion. -/
theorem folder_failure_stops_branch (env : Env) (fuel : Nat) (fid dest : String)
    (m : Meta) (hm : env.metadata fid = Except.ok (some m))
    (hf : m.mimeType = folderMime) :
    (env.createFolder m.name dest = Except.ok none →
      process_item env (fuel + 1) fid dest
        = ([Ev.getMeta fid, Ev.createFolder m.name dest], PRes.done))
    ∧ (∀ nf, env.createFolder m.name dest = Except.ok (some nf) →
        env.listCall fid = ListRes.httpErr →
        process_item env (fuel + 1) fid dest
          = ([Ev.getMeta fid, Ev.createFolder m.name dest, Ev.listChildren fid],
             PRes.done))
    ∧ (∀ nf, env.createFolder m.name dest = Except.ok (some nf) →
        env.listCall fid = ListRes.exhausted →
        process_item env (fuel + 1) fid dest
          = ([Ev.getMeta fid, Ev.createFolder m.name dest, Ev.listChildren fid],
             PRes.exn "RetriesExhausted")) := by
  refine ⟨fun hc => ?_, fun nf hc hl => ?_, fun nf hc hl => ?_⟩
  · simp [process_item, hm, hf, hc]
  · simp [process_item, hm, hf, hc, hl]
  · simp [process_item, hm, hf, hc, hl]

/-- A folder `G` used to witness the failure branches of C7. -/
def metaG : Meta := ⟨"G", "Gname", folderMime⟩

/-- Run where mirror-folder creation fails. -/
def envC7a : Env :=
  ⟨fun _ => .ok (some metaG), fun _ _ => .ok none, fun _ => .httpErr,
   fun _ => .ok none, fun _ => .ok none, fun _ _ => .ok none⟩

/-- Run where creation succeeds but the listing raises a permanent
`HttpError` (caught by `process_item`'s handler). -/
def envC7b : Env :=
  ⟨fun _ => .ok (some metaG), fun _ _ => .ok (some "NG"), fun _ => .httpErr,
   fun _ => .ok none, fun _ => .ok none, fun _ _ => .ok none⟩

/-- Run where creation succeeds but the listing exhausts its retries. -/
def envC7c : Env :=
  ⟨fun _ => .ok (some metaG), fun _ _ => .ok (some "NG"), fun _ => .exhausted,
   fun _ => .ok none, fun _ => .ok none, fun _ _ => .ok none⟩

/-- Witness for C7 on the three failure runs. -/
theorem folder_failure_stops_branch_witness :
    process_item envC7a 1 "G" "bak"
      = ([Ev.getMeta "G", Ev.createFolder "Gname" "bak"], PRes.done)
    ∧ process_item envC7b 1 "G" "bak"
      = ([Ev.getMeta "G", Ev.createFolder "Gname" "bak", Ev.listChildren "G"],
         PRes.done)
    ∧ process_item envC7c 1 "G" "bak"
      = ([Ev.getMeta "G", Ev.createFolder "Gname" "bak", Ev.listChildren "G"],
         PRes.exn "RetriesExhausted") :=
  ⟨(folder_failure_stops_branch envC7a 0 "G" "bak" metaG rfl rfl).1 rfl,
   (folder_failure_stops_branch envC7b 0 "G" "bak" metaG rfl rfl).2.1 "NG" rfl rfl,
   (folder_failure_stops_branch envC7c 0 "G" "bak" metaG rfl rfl).2.2 "NG" rfl rfl⟩

/-- C1 counterexample: in `envC1` the folder `F`'s single enumerated child
`C` fails both duplication paths — it is never copied, duplicated or
relocated — yet the original folder `F` is still relocated into the backup
destination.  So relocation is not conditional on every child having been
*successfully* processed. -/
theorem folder_relocated_despite_failed_child :
    metaC ∈ pgC1.files
    ∧ envC1.copy "C" = Except.ok none
    ∧ envC1.dlul "C" = Except.ok none
    ∧ Ev.moveFile "F" "bak" ∈ (process_item envC1 2 "F" "bak").1
    ∧ ((process_item envC1 2 "F" "bak").1.all fun e =>
        match e with
        | Ev.moveFile i _ => !(i == "C")
        | _ => true) = true :=
  ⟨by decide, rfl, rfl, by decide, by decide⟩

/-- C1 (amended): the relocation of a folder happens only after all of its
enumerated children have completed processing (success or reported
failure) and never before: when the child loop completes normally the
folder's `moveFile` event is the final event, placed after the entire
child-processing trace; when a child raises an uncaught exception the
folder is not relocated at all. -/
theorem folder_relocation_after_children (env : Env) (fuel : Nat) (fid dest : String)
    (m : Meta) (nf : String) (pg : Page)
    (hm : env.metadata fid = Except.ok (some m)) (hf : m.mimeType = folderMime)
    (hc : env.createFolder m.name dest = Except.ok (some nf))
    (hl : env.listCall fid = ListRes.page pg) (ht : pg.nextPageToken = none) :
    ((runChildren (fun cid => process_item env fuel cid nf) pg.files).2 = PRes.done →
      (process_item env (fuel + 1) fid dest).1
        = [Ev.getMeta fid, Ev.createFolder m.name dest, Ev.listChildren fid]
            ++ (runChildren (fun cid => process_item env fuel cid nf) pg.files).1
            ++ [Ev.moveFile fid dest])
    ∧ (∀ e, (runChildren (fun cid => process_item env fuel cid nf) pg.files).2
          = PRes.exn e →
      (process_item env (fuel + 1) fid dest).1
        = [Ev.getMeta fid, Ev.createFolder m.name dest, Ev.listChildren fid]
            ++ (runChildren (fun cid => process_item env fuel cid nf) pg.files).1) := by
  rcases hrc : runChildren (fun cid => process_item env fuel cid nf) pg.files
    with ⟨cevs, r⟩
  constructor
  · intro hdone
    simp at hdone
    subst hdone
    simp [process_item, hm, hf, hc, hl, ht, hrc]
  · intro e hexn
    simp at hexn
    subst hexn
    simp [process_item, hm, hf, hc, hl, ht, hrc]

/-- Witness for the amended C1 on `envC1`: the folder's relocation event
comes after the full child-processing trace. -/
theorem folder_relocation_after_children_witness :
    (process_item envC1 2 "F" "bak").1
      = [Ev.getMeta "F", Ev.createFolder "Fname" "bak", Ev.listChildren "F"]
          ++ (runChildren (fun cid => process_item envC1 1 cid "NF") pgC1.files).1
          ++ [Ev.moveFile "F" "bak"] :=
  (folder_relocation_after_children envC1 1 "F" "bak" metaF "NF" pgC1
    rfl rfl rfl rfl rfl).1 (by decide)

/-- C5: evaluating `process_item` on the folder `F5`, whose listing
response carries a `nextPageToken`, shows the pagination handling fail:
the second-page request calls the 2-parameter `list_files_in_folder` with
3 arguments and raises `TypeError`; the children of the first page are
never processed, the other pages are never fetched, and the folder is not
relocated — the full child set is not returned. -/
theorem pagination_second_page_type_error :
    pgC5.nextPageToken = some "tok2"
    ∧ process_item envC5 3 "F5" "bak"
      = ([Ev.getMeta "F5", Ev.createFolder "F5name" "bak", Ev.listChildren "F5"],
         PRes.exn "TypeError")
    ∧ Ev.getMeta "D" ∉ (process_item envC5 3 "F5" "bak").1
    ∧ Ev.moveFile "F5" "bak" ∉ (process_item envC5 3 "F5" "bak").1 := by decide

/-- C4: evaluating `process_csv` on a manifest whose first data row's
migration raises an exception (the paginated folder `F5`, whose processing
raises `TypeError`) shows the second row is never attempted: the exception
propagates out of the row loop to the function-level `except Exception`
handler and the run ends after the first row. -/
theorem row_exception_aborts_manifest :
    process_csv (fun cs => (process_item envC5 4 (String.mk cs) "bak").2) true rowsC4
      = ([CsvEv.processed (strL "F5")], CsvRes.unexpectedErr "TypeError")
    ∧ CsvEv.processed (strL "GOOD")
        ∉ (process_csv (fun cs => (process_item envC5 4 (String.mk cs) "bak").2)
            true rowsC4).1 := by decide

/-- Splitting a string in which the separator does not occur yields the
whole string, whatever the fuel. -/
theorem pySplitAux_of_no_occurrence (s sep : List Char) (h : findSplit s sep = none) :
    ∀ n, pySplitAux n s sep = [s] := by
  intro n
  cases n <;> simp [pySplitAux, h]

/-- C8: URL id extraction.  A URL in which the file pattern
`drive.google.com/file/d/` occurs exactly once, followed by an id segment
and a `/`, yields that id segment; a URL without the file pattern in which
the folder pattern `drive.google.com/drive/folders/` occurs exactly once,
followed by an id segment and a `?`, yields that id segment; a URL
containing neither pattern yields no id, and the row loop skips such a row
with a diagnostic and continues with the remaining rows. -/
theorem url_id_extraction (url pre after fid rest : List Char)
    (h1 : findSplit url filePat = some (pre, after))
    (h2 : findSplit after filePat = none)
    (h3 : findSplit after (strL "/") = some (fid, rest)) :
    extractDriveId url = some fid
    ∧ (∀ u preF afF gid grest, findSplit u filePat = none →
        findSplit u folderPat = some (preF, afF) →
        findSplit afF folderPat = none →
        findSplit afF (strL "?") = some (gid, grest) →
        extractDriveId u = some gid)
    ∧ (∀ v, findSplit v filePat = none → findSplit v folderPat = none →
        extractDriveId v = none)
    ∧ (∀ (run : List Char → PRes) (nm v : List Char) rs,
        findSplit (pyStrip v) filePat = none → findSplit (pyStrip v) folderPat = none →
        process_rows run ([nm, v] :: rs)
          = (CsvEv.skippedNoId (pyStrip v) :: (process_rows run rs).1,
             (process_rows run rs).2)) := by
  refine ⟨?_, ?_, ?_, ?_⟩
  · have hg : pyContainsSub url filePat = true := by simp [pyContainsSub, h1]
    have hs1 : pySplit url filePat = [pre, after] := by
      simp [pySplit, pySplitAux, h1, pySplitAux_of_no_occurrence after filePat h2]
    have hs2 : (pySplit after (strL "/")).getD 0 [] = fid := by
      simp [pySplit, pySplitAux, h3]
    simp [extractDriveId, hg, hs1]
    simpa using hs2
  · intro u preF afF gid grest hfile hfolder honce hq
    have hg0 : pyContainsSub u filePat = false := by simp [pyContainsSub, hfile]
    have hg : pyContainsSub u folderPat = true := by simp [pyContainsSub, hfolder]
    have hs1 : pySplit u folderPat = [preF, afF] := by
      simp [pySplit, pySplitAux, hfolder, pySplitAux_of_no_occurrence afF folderPat honce]
    have hs2 : (pySplit afF (strL "?")).getD 0 [] = gid := by
      simp [pySplit, pySplitAux, hq]
    simp [extractDriveId, hg0, hg, hs1]
    simpa using hs2
  · intro v hfile hfolder
    simp [extractDriveId, pyContainsSub, hfile, hfolder]
  · intro run nm v rs hfa hfb
    have hnone : extractDriveId (pyStrip v) = none := by
      simp [extractDriveId, pyContainsSub, hfa, hfb]
    simp [process_rows, hnone]

/-- Witness for C8 on the spec's three example URLs. -/
theorem url_id_extraction_witness :
    extractDriveId (strL "https://drive.google.com/file/d/ABC123/view")
      = some (strL "ABC123")
    ∧ extractDriveId (strL "https://drive.google.com/drive/folders/XYZ789?usp=sharing")
      = some (strL "XYZ789")
    ∧ extractDriveId (strL "https://example.com/other") = none := by
  have h := url_id_extraction (strL "https://drive.google.com/file/d/ABC123/view")
    (strL "https://") (strL "ABC123/view") (strL "ABC123") (strL "view")
    (by decide) (by decide) (by decide)
  exact ⟨h.1,
    h.2.1 (strL "https://drive.google.com/drive/folders/XYZ789?usp=sharing")
      (strL "https://") (strL "XYZ789?usp=sharing") (strL "XYZ789") (strL "usp=sharing")
      (by decide) (by decide) (by decide) (by decide),
    h.2.2.1 (strL "https://example.com/other") (by decide) (by decide)⟩

end DriveMigrate
